import Mathlib

/-!
Verification development for the docarray core: the tensor wire codec
(`TorchTensor.to_protobuf` / `TorchTensor.from_protobuf` in
`docarray/typing/tensor/torch_tensor.py`), the exact-search engine
(`find` / `find_batched` in `docarray/utils/find.py` and
`docarray/utility/find.py`), and the shape-parametrization validators
(`docarray/typing/tensor/embedding.py`).

Tensors are embedded shallowly: a numpy-backed tensor is its dtype
descriptor, its shape (a list of extents) and its raw byte payload in
row-major order.  Python exceptions are embedded as `Except` values.
-/

namespace Docarray

/-- A numpy dtype descriptor: the dtype's string form (e.g. `"<f4"`) together
with its item size in bytes.  `numpy.dtype(s).str` round-trips with `s` for
canonical strings, so carrying the pair is equivalent to carrying the string. -/
structure NpDType where
  name : String
  itemsize : Nat
deriving DecidableEq, Repr

/-- `numpy.float64`, the default dtype of `numpy.zeros`. -/
def float64 : NpDType := ⟨"<f8", 8⟩

/-- `numpy.float32`. -/
def float32 : NpDType := ⟨"<f4", 4⟩

/-- A tensor value as `torch_tensor.py` serializes it: the numpy view of the
data (`self.detach().cpu().numpy()`), i.e. a dtype, a shape, and the raw
bytes of the payload in row-major order (one `Nat` per byte). -/
structure NdTensor where
  dtype : NpDType
  shape : List Nat
  data : List Nat
deriving DecidableEq, Repr

/-- A tensor is wellformed when its payload has exactly
`itemsize * prod(shape)` bytes, which holds of every real numpy array. -/
def NdTensor.wellformed (t : NdTensor) : Prop :=
  t.data.length = t.dtype.itemsize * t.shape.prod

instance (t : NdTensor) : Decidable t.wellformed := by
  unfold NdTensor.wellformed; infer_instance

/-- The `dense` part of an `NdArrayProto` message: a raw byte buffer, an
explicit shape sequence, and the dtype string. -/
structure NdArrayProto where
  buffer : List Nat
  shape : List Nat
  dtype : NpDType
deriving DecidableEq, Repr

/-- `TorchTensor.to_protobuf` (torch_tensor.py lines 194-208):
`nd_proto.dense.buffer = value_np.tobytes()`, the shape sequence is the
numpy shape, and `dtype` is the numpy dtype string. -/
def to_protobuf (t : NdTensor) : NdArrayProto :=
  { buffer := t.data, shape := t.shape, dtype := t.dtype }

/-- `TorchTensor.from_protobuf` (torch_tensor.py lines 179-192):
if the buffer is non-empty, `np.frombuffer` + `reshape(source.shape)`
(which together succeed exactly when the byte count equals
`itemsize * prod(shape)`); else, if the shape sequence is non-empty,
materialize `np.zeros(source.shape)` (dtype `float64`, numpy's default);
else raise `ValueError`. -/
def from_protobuf (pb : NdArrayProto) : Except String NdTensor :=
  if pb.buffer.length ≠ 0 then
    if pb.buffer.length = pb.dtype.itemsize * pb.shape.prod then
      .ok { dtype := pb.dtype, shape := pb.shape, data := pb.buffer }
    else
      .error "cannot reshape array"
  else if 0 < pb.shape.length then
    .ok { dtype := float64, shape := pb.shape
          data := List.replicate (float64.itemsize * pb.shape.prod) 0 }
  else
    .error "proto message cannot be cast to a TorchTensor"

deriving instance DecidableEq for Except

/-- C1 -- COUNTEREXAMPLE.  The round trip does NOT hold for every tensor
value: a float32 tensor of shape `[0]` (zero elements, empty payload)
decodes to a float64 tensor, because `to_protobuf` writes an empty buffer
and `from_protobuf` then takes the `np.zeros(source.shape)` branch, whose
dtype is numpy's default float64, not the encoded `<f4`. -/
theorem C1_roundtrip_counterexample :
    NdTensor.wellformed ⟨float32, [0], []⟩ ∧
      from_protobuf (to_protobuf ⟨float32, [0], []⟩) ≠
        Except.ok ⟨float32, [0], []⟩ := by
  constructor
  · decide
  · decide

/-- C1 (amended) -- for every wellformed tensor with a non-empty payload
(at least one element), decoding the message produced by encoding it yields
the identical tensor: same shape, same dtype, same payload bytes. -/
theorem C1_roundtrip (t : NdTensor) (hw : t.wellformed) (hne : t.data ≠ []) :
    from_protobuf (to_protobuf t) = Except.ok t := by
  have hw' : t.data.length = t.dtype.itemsize * t.shape.prod := hw
  have hlen : t.data.length ≠ 0 := by
    intro h
    exact hne (List.eq_nil_of_length_eq_zero h)
  unfold from_protobuf to_protobuf
  rw [if_pos hlen, if_pos hw']

/-- C1 witness: the amended round trip at the concrete float32 tensor of
shape `[2]` with payload bytes `[1,2,3,4,5,6,7,8]`. -/
theorem C1_roundtrip_witness :
    from_protobuf (to_protobuf ⟨float32, [2], [1,2,3,4,5,6,7,8]⟩) =
      Except.ok ⟨float32, [2], [1,2,3,4,5,6,7,8]⟩ :=
  C1_roundtrip ⟨float32, [2], [1,2,3,4,5,6,7,8]⟩ (by decide) (by decide)

/-- C2 -- decoding a message with an empty buffer and a non-empty shape
sequence succeeds and returns a zero-filled tensor of exactly that shape
(it is not an error); decoding with both the buffer and the shape empty
fails. -/
theorem C2_empty_buffer_zeros (dt : NpDType) (shape : List Nat)
    (hs : shape ≠ []) :
    (∃ z, from_protobuf ⟨[], shape, dt⟩ = Except.ok z ∧
        z.shape = shape ∧ z.data.length = 8 * shape.prod ∧
        ∀ b ∈ z.data, b = 0) ∧
      (∀ dt2 : NpDType, ∃ msg, from_protobuf ⟨[], [], dt2⟩ = Except.error msg) := by
  constructor
  · refine ⟨⟨float64, shape, List.replicate (float64.itemsize * shape.prod) 0⟩,
      ?_, rfl, ?_, ?_⟩
    · unfold from_protobuf
      simp [List.length_pos, hs]
    · simp [float64]
    · intro b hb
      exact List.eq_of_mem_replicate hb
  · intro dt2
    exact ⟨_, rfl⟩

/-- C2 witness: the theorem applied at dtype float32 and shape `[2, 3]`. -/
theorem C2_empty_buffer_zeros_witness :
    (∃ z, from_protobuf ⟨[], [2, 3], float32⟩ = Except.ok z ∧
        z.shape = [2, 3] ∧ z.data.length = 8 * ([2, 3] : List Nat).prod ∧
        ∀ b ∈ z.data, b = 0) ∧
      (∀ dt2 : NpDType, ∃ msg, from_protobuf ⟨[], [], dt2⟩ = Except.error msg) :=
  C2_empty_buffer_zeros float32 [2, 3] (by decide)

/-! ## The exact-search engine (`docarray/utils/find.py`)

Documents are elements of an arbitrary type `α`; the index is a `List α`
and the value of the search field on a document is produced by an
`embedOf` function.  Embedding vectors are flat integer vectors.  The
backend metric (`comp_backend.Metrics.<metric>`) and top-k
(`comp_backend.Retrieval.top_k`) are capabilities whose code is outside
this repository slice; they are modelled from the spec below. -/

/-- An embedding vector (one row of an embedding matrix). -/
abbrev Emb := List Int

/-- The declared type of a schema field, as the search code distinguishes
them: the two concrete tensor types (subclasses of `AbstractTensor`) and
non-tensor scalar types. -/
inductive FieldType
  | torchTensorT
  | ndArrayT
  | strT
  | intT
deriving DecidableEq, Repr

/-- `issubclass(field_type, AbstractTensor)`: whether the declared type is
a tensor-like type. -/
def FieldType.isTensor : FieldType → Bool
  | .torchTensorT | .ndArrayT => true
  | _ => false

/-- The Python class name of a field type, used as the key of the
`type_to_framework` dictionary in `docarray/typing/tensor`. -/
def FieldType.pyName : FieldType → String
  | .torchTensorT => "TorchTensor"
  | .ndArrayT => "NdArray"
  | .strT => "str"
  | .intT => "int"

/-- A document schema: the ordered mapping from field name to declared
type produced by the schema layer (`doc_type.__fields__`). -/
abbrev Schema := List (String × FieldType)

/-- Field lookup on a schema (`__fields__[name]` / access-path resolution). -/
def lookupField (schema : Schema) (name : String) : Option FieldType :=
  (schema.find? (fun p => p.1 == name)).map (·.2)

/-- The Python exceptions the search paths can raise, as typed values:
`valueError` is the generic `ValueError` for an invalid access path,
`fieldTypeError` is the `ValueError` "attribute {path} is not a
tensor-like type" (the spec's FieldTypeError), `batchSizeError` is the
`ValueError` "`batch_size` must be larger than 0, receiving {n}",
`keyError` is a `KeyError` from a dictionary lookup, and `indexError` is
an `IndexError` from list indexing. -/
inductive FindError
  | valueError (msg : String)
  | fieldTypeError (accessPath : String)
  | batchSizeError (received : Int)
  | keyError (key : String)
  | indexError
deriving DecidableEq, Repr

/-- The successive phases of a `find_batched` call, recorded in the order
the source executes them, so that "fails before X" is expressible. -/
inductive Phase
  | resolveField
  | extractIndexEmb
  | extractQueryEmb
  | score
  | retrieve
deriving DecidableEq, Repr

/-- Python's `str.endswith`, on the character lists of the strings. -/
def endsWith (s suffix : String) : Bool :=
  suffix.data.isSuffixOf s.data

/-- `find_batched` lines 232-233 (and `utility/find.py` lines 188-189):
`if descending is None: descending = metric.endswith('_sim')`. -/
def resolve_descending (descending : Option Bool) (metric : String) : Bool :=
  match descending with
  | none => endsWith metric "_sim"
  | some b => b

/-- Modelled from the spec: the backend capability
`top_k(scores, k, descending) -> (scores, indices)` (the computational
backend is outside this repository slice).  It selects the `k` best
scores, best first per the `descending` flag, returning them with the
index positions they came from. -/
def top_k (scores : List Int) (k : Nat) (descending : Bool) :
    List Int × List Nat :=
  let le : Nat × Int → Nat × Int → Bool :=
    if descending then fun a b => b.2 ≤ a.2 else fun a b => a.2 ≤ b.2
  let taken := (scores.enum.mergeSort le).take k
  (taken.map (·.2), taken.map (·.1))

/-- `get_result` (utils/find.py lines 122-138): compute the `[Q, M]` score
matrix with the backend metric and run the backend top-k on it, returning
`(top_indices, top_scores)`.  Modelled from the spec: the backend metric
produces one score row per query row (each row depends only on that query
row and the index embeddings), as the cosine/euclidean metrics do. -/
def get_result (query_embs : List Emb) (index_embeddings : List Emb)
    (metric_fn : Emb → List Emb → List Int) (limit : Nat)
    (descending : Bool) : List (List Nat) × List (List Int) :=
  let pairs := (query_embs.map (fun q => metric_fn q index_embeddings)).map
    (fun row => top_k row limit descending)
  (pairs.map (·.2), pairs.map (·.1))

/-- Modelled from the spec: the deterministic partition of the query rows
into chunks of `b` used by the parallel map
(`docarray/utils/map.py` is outside this repository slice); spec section
4.5 step 7 requires chunks of `batch_size` gathered back in original
query order. -/
def chunkList (b : Nat) : List α → List (List α)
  | [] => []
  | x :: xs =>
    if hb : b = 0 then [x :: xs]
    else (x :: xs).take b :: chunkList b ((x :: xs).drop b)
termination_by l => l.length
decreasing_by
  simp only [List.length_drop]
  exact Nat.sub_lt (by simp) (Nat.pos_of_ne_zero hb)

/-- `index[idx]`: list indexing that raises `IndexError` out of range. -/
def getDoc (index : List α) (i : Nat) : Except FindError α :=
  match index[i]? with
  | some d => .ok d
  | none => .error .indexError

/-- A Python loop that maps a fallible operation over a list, propagating
the first exception. -/
def mapExcept (f : β → Except FindError γ) : List β → Except FindError (List γ)
  | [] => .ok []
  | x :: xs =>
    match f x with
    | .error e => .error e
    | .ok y =>
      match mapExcept f xs with
      | .error e => .error e
      | .ok ys => .ok (y :: ys)

/-- The result-materialization loops of `find_batched` (lines 262-272 and
291-299): for each query row, append `index[idx]` for each selected index
in selection order, paired with that row's scores. -/
def materialize (index : List α) (rows : List (List Nat × List Int)) :
    Except FindError (List (List α × List Int)) :=
  mapExcept (fun r =>
    match mapExcept (getDoc index) r.1 with
    | .error e => .error e
    | .ok docs => .ok (docs, r.2)) rows

/-- `find_batched` (utils/find.py lines 141-300).  `query_rows` is the
extracted query embedding matrix (one row per query).  Following the
source order: resolve `descending`; resolve the search field's declared
type (`_da_attr_type`, raising for non-tensor fields); extract the index
embeddings; then either reject a non-positive `batch_size`, or score and
materialize — unbatched in one pass when `batch_size` is `None`, else on
chunks of `batch_size` gathered in original query order (the parallel map
in `docarray/utils/map.py` is outside this repository slice and is
modelled from the spec's order-preserving scatter/gather, with
`shuffle=False`).  The second component records the phases executed. -/
def find_batched (schema : Schema) (index : List α) (embedOf : α → Emb)
    (query_rows : List Emb) (batch_size : Option Int) (search_field : String)
    (metric : String) (metric_fn : Emb → List Emb → List Int) (limit : Nat)
    (descending : Option Bool) :
    Except FindError (List (List α × List Int)) × List Phase :=
  let desc := resolve_descending descending metric
  match lookupField schema search_field with
  | none => (.error (.valueError ("Access path is not valid: " ++ search_field)), [])
  | some ft =>
    if ft.isTensor then
      let index_embeddings := index.map embedOf
      match batch_size with
      | some b =>
        if b ≤ 0 then
          (.error (.batchSizeError b), [.resolveField, .extractIndexEmb])
        else
          let results := (chunkList b.toNat query_rows).map
            (fun c => get_result c index_embeddings metric_fn limit desc)
          let rows := (results.map (fun r => r.1.zip r.2)).flatten
          (materialize index rows,
            [.resolveField, .extractIndexEmb, .extractQueryEmb, .score, .retrieve])
      | none =>
        let r := get_result query_rows index_embeddings metric_fn limit desc
        (materialize index (r.1.zip r.2),
          [.resolveField, .extractIndexEmb, .extractQueryEmb, .score, .retrieve])
    else
      (.error (.fieldTypeError search_field), [])

/-- Per-query-row selection: the `(indices, scores)` pair the backend
top-k returns on this row's metric scores. -/
def rowPair (index_embeddings : List Emb)
    (metric_fn : Emb → List Emb → List Int) (limit : Nat) (desc : Bool)
    (q : Emb) : List Nat × List Int :=
  ((top_k (metric_fn q index_embeddings) limit desc).2,
   (top_k (metric_fn q index_embeddings) limit desc).1)

theorem get_result_zip (qs I : List Emb) (mf : Emb → List Emb → List Int)
    (k : Nat) (d : Bool) :
    ((get_result qs I mf k d).1).zip (get_result qs I mf k d).2
      = qs.map (rowPair I mf k d) := by
  unfold get_result rowPair
  simp only [List.zip_map', List.map_map]
  rfl

theorem chunkList_flatten (b : Nat) (hb : b ≠ 0) :
    ∀ l : List α, (chunkList b l).flatten = l
  | [] => by simp [chunkList]
  | x :: xs => by
    rw [chunkList, dif_neg hb, List.flatten_cons,
      chunkList_flatten b hb ((x :: xs).drop b)]
    exact List.take_append_drop b (x :: xs)
termination_by l => l.length
decreasing_by
  simp only [List.length_drop]
  exact Nat.sub_lt (by simp) (Nat.pos_of_ne_zero hb)

/-- C3 -- for every index and query, `find_batched` in a single unbatched
pass (`batch_size=None`) and `find_batched` with a positive `batch_size`
(in particular 1) return identical (document, score) sequences in the same
order: the result is independent of the chunking.  Worker parallelism is
outside the model; the parallel map (`docarray/utils/map.py`, not in this
repository slice) is modelled from the spec's order-preserving
scatter/gather, which is what makes the result worker-count independent. -/
theorem C3_find_batched_deterministic (schema : Schema) (index : List α)
    (embedOf : α → Emb) (query_rows : List Emb) (b : Int)
    (search_field metric : String) (metric_fn : Emb → List Emb → List Int)
    (limit : Nat) (descending : Option Bool) (hb : 0 < b) :
    (find_batched schema index embedOf query_rows (some b) search_field
        metric metric_fn limit descending).1 =
      (find_batched schema index embedOf query_rows none search_field
        metric metric_fn limit descending).1 := by
  unfold find_batched
  cases hf : lookupField schema search_field with
  | none => rfl
  | some ft =>
    by_cases ht : ft.isTensor
    · have hble : ¬ b ≤ 0 := by omega
      have hbn : b.toNat ≠ 0 := by omega
      simp only [ht, if_true, hble, if_false, List.map_map, get_result_zip]
      have hcomp : ((fun r : List (List Nat) × List (List Int) => r.1.zip r.2) ∘
          fun c => get_result c (List.map embedOf index) metric_fn limit
            (resolve_descending descending metric)) =
          List.map (rowPair (List.map embedOf index) metric_fn limit
            (resolve_descending descending metric)) :=
        funext fun c => get_result_zip c (List.map embedOf index) metric_fn
          limit (resolve_descending descending metric)
      rw [hcomp, ← List.map_flatten, chunkList_flatten b.toNat hbn]
    · simp [ht]

/-- C3 witness: the chunked/unchunked agreement at `batch_size = 1` on a
concrete three-document index and two-query batch. -/
theorem C3_find_batched_deterministic_witness :
    (find_batched [("embedding", FieldType.torchTensorT)]
        [10, 20, 30] (fun d => [d]) [[1], [25]] (some 1) "embedding"
        "cosine_sim" (fun q idx => idx.map (fun v => -(q.headD 0 - v.headD 0).natAbs))
        2 none).1 =
      (find_batched [("embedding", FieldType.torchTensorT)]
        [10, 20, 30] (fun d => [d]) [[1], [25]] none "embedding"
        "cosine_sim" (fun q idx => idx.map (fun v => -(q.headD 0 - v.headD 0).natAbs))
        2 none).1 :=
  C3_find_batched_deterministic _ _ _ _ 1 _ _ _ _ _ (by decide)

/-- C4 -- when the caller does not supply `descending`, it defaults to
true exactly when the metric name ends in the similarity suffix `_sim`
(so `cosine_sim` sorts descending while `euclidean_dist` and
`sqeuclidean_dist` sort ascending), and a caller-supplied value overrides
the default: `find_batched` with `descending=None` behaves identically to
`find_batched` with the suffix-derived flag supplied explicitly. -/
theorem C4_descending_default (schema : Schema) (index : List α)
    (embedOf : α → Emb) (query_rows : List Emb) (batch_size : Option Int)
    (search_field metric : String) (metric_fn : Emb → List Emb → List Int)
    (limit : Nat) (b : Bool) :
    resolve_descending none metric = endsWith metric "_sim" ∧
      resolve_descending (some b) metric = b ∧
      endsWith "cosine_sim" "_sim" = true ∧
      endsWith "euclidean_dist" "_sim" = false ∧
      endsWith "sqeuclidean_dist" "_sim" = false ∧
      find_batched schema index embedOf query_rows batch_size search_field
          metric metric_fn limit none =
        find_batched schema index embedOf query_rows batch_size search_field
          metric metric_fn limit (some (endsWith metric "_sim")) :=
  ⟨rfl, rfl, by decide, by decide, by decide, rfl⟩

/-- C10 -- calling `find_batched` with a non-`None` `batch_size ≤ 0` on an
index whose search field resolves to a tensor type raises the
`batch_size` `ValueError`, and the phases executed stop at the index
embedding extraction: no embedding is extracted from the query and no
scoring is performed (the model is pure, and the source path mutates
neither the index nor the query). -/
theorem C10_batch_size_validation (schema : Schema) (index : List α)
    (embedOf : α → Emb) (query_rows : List Emb) (b : Int)
    (search_field metric : String) (metric_fn : Emb → List Emb → List Int)
    (limit : Nat) (descending : Option Bool) (ft : FieldType)
    (hf : lookupField schema search_field = some ft)
    (ht : ft.isTensor = true) (hb : b ≤ 0) :
    find_batched schema index embedOf query_rows (some b) search_field
        metric metric_fn limit descending =
      (Except.error (FindError.batchSizeError b),
        [Phase.resolveField, Phase.extractIndexEmb]) ∧
      Phase.extractQueryEmb ∉ (find_batched schema index embedOf query_rows
        (some b) search_field metric metric_fn limit descending).2 ∧
      Phase.score ∉ (find_batched schema index embedOf query_rows
        (some b) search_field metric metric_fn limit descending).2 := by
  have h : find_batched schema index embedOf query_rows (some b) search_field
      metric metric_fn limit descending =
      (Except.error (FindError.batchSizeError b),
        [Phase.resolveField, Phase.extractIndexEmb]) := by
    unfold find_batched
    rw [hf]
    simp [ht, hb]
  refine ⟨h, ?_, ?_⟩ <;> rw [h] <;> simp

/-- C10 witness: the theorem at `batch_size = 0` on a concrete index. -/
theorem C10_batch_size_validation_witness :
    find_batched [("embedding", FieldType.torchTensorT)] [(5 : Int)]
        (fun d => [d]) [[1]] (some 0) "embedding" "cosine_sim"
        (fun _ _ => []) 10 none =
      (Except.error (FindError.batchSizeError 0),
        [Phase.resolveField, Phase.extractIndexEmb]) ∧
      Phase.extractQueryEmb ∉ (find_batched [("embedding", FieldType.torchTensorT)]
        [(5 : Int)] (fun d => [d]) [[1]] (some 0) "embedding" "cosine_sim"
        (fun _ _ => []) 10 none).2 ∧
      Phase.score ∉ (find_batched [("embedding", FieldType.torchTensorT)]
        [(5 : Int)] (fun d => [d]) [[1]] (some 0) "embedding" "cosine_sim"
        (fun _ _ => []) 10 none).2 :=
  C10_batch_size_validation _ _ _ _ 0 _ _ _ _ _ FieldType.torchTensorT
    (by decide) (by decide) (by decide)

theorem top_k_length (scores : List Int) (k : Nat) (d : Bool) :
    (top_k scores k d).1.length = min k scores.length ∧
      (top_k scores k d).2.length = min k scores.length := by
  unfold top_k
  simp [List.length_take, List.length_mergeSort, List.enum_length]

theorem top_k_indices_lt (scores : List Int) (k : Nat) (d : Bool) :
    ∀ i ∈ (top_k scores k d).2, i < scores.length := by
  unfold top_k
  intro i hi
  simp only [List.mem_map] at hi
  obtain ⟨⟨j, s⟩, hp, h⟩ := hi
  have hp2 : (j, s) ∈ scores.enum := List.mem_mergeSort.mp (List.mem_of_mem_take hp)
  have := (List.mem_enum hp2).1
  simpa [← h] using this

theorem mapExcept_getDoc_ok (index : List α) :
    ∀ {idxs : List Nat} {docs : List α},
      mapExcept (getDoc index) idxs = .ok docs →
      docs.length = idxs.length ∧ ∀ d ∈ docs, d ∈ index := by
  intro idxs
  induction idxs with
  | nil =>
    intro docs h
    rw [mapExcept] at h
    cases h
    exact ⟨rfl, by simp⟩
  | cons i is ih =>
    intro docs h
    rw [mapExcept] at h
    cases hg : getDoc index i with
    | error e => rw [hg] at h; cases h
    | ok d0 =>
      rw [hg] at h
      cases hrest : mapExcept (getDoc index) is with
      | error e => rw [hrest] at h; cases h
      | ok ds =>
        rw [hrest] at h
        cases h
        obtain ⟨hl, hmem⟩ := ih hrest
        have hd0 : d0 ∈ index := by
          unfold getDoc at hg
          cases hidx : index[i]? with
          | none => rw [hidx] at hg; cases hg
          | some d => rw [hidx] at hg; cases hg; exact List.getElem?_mem hidx
        refine ⟨by simp [hl], ?_⟩
        intro d hd
        rcases List.mem_cons.mp hd with rfl | hmem2
        · exact hd0
        · exact hmem d hmem2

theorem mapExcept_getDoc_exists (index : List α) :
    ∀ idxs : List Nat, (∀ i ∈ idxs, i < index.length) →
      ∃ docs, mapExcept (getDoc index) idxs = .ok docs := by
  intro idxs
  induction idxs with
  | nil => intro _; exact ⟨[], rfl⟩
  | cons i is ih =>
    intro h
    obtain ⟨docs, hd⟩ := ih (fun j hj => h j (by simp [hj]))
    have hi : i < index.length := h i (by simp)
    have hget : getDoc index i = .ok index[i] := by
      unfold getDoc
      rw [List.getElem?_eq_getElem hi]
    refine ⟨index[i] :: docs, ?_⟩
    rw [mapExcept, hget, hd]

theorem materialize_map (index : List α) (f : Emb → List Nat × List Int) :
    ∀ qs : List Emb, (∀ q ∈ qs, ∀ i ∈ (f q).1, i < index.length) →
      ∃ rows, materialize index (qs.map f) = .ok rows ∧
        rows.length = qs.length ∧
        (∀ r ∈ rows, ∃ q ∈ qs,
          mapExcept (getDoc index) (f q).1 = .ok r.1 ∧ r.2 = (f q).2) ∧
        ∀ (j : Nat) (q : Emb), qs[j]? = some q →
          ∃ docs, mapExcept (getDoc index) (f q).1 = .ok docs ∧
            rows[j]? = some (docs, (f q).2) := by
  intro qs
  induction qs with
  | nil =>
    intro _
    refine ⟨[], rfl, rfl, by simp, ?_⟩
    intro j q hq
    simp at hq
  | cons q0 qs ih =>
    intro h
    obtain ⟨rows, hr, hlen, hsrc, hcorr⟩ := ih (fun q hq => h q (by simp [hq]))
    obtain ⟨docs0, hd0⟩ :=
      mapExcept_getDoc_exists index (f q0).1 (h q0 (by simp))
    refine ⟨(docs0, (f q0).2) :: rows, ?_, by simp [hlen], ?_, ?_⟩
    · unfold materialize at hr ⊢
      rw [List.map_cons, mapExcept, hd0, hr]
    · intro r hmem
      rcases List.mem_cons.mp hmem with rfl | hmem2
      · exact ⟨q0, by simp, hd0, rfl⟩
      · obtain ⟨q, hq, h1, h2⟩ := hsrc r hmem2
        exact ⟨q, by simp [hq], h1, h2⟩
    · intro j q hq
      cases j with
      | zero =>
        simp only [List.getElem?_cons_zero] at hq ⊢
        cases hq
        exact ⟨docs0, hd0, rfl⟩
      | succ n =>
        simp only [List.getElem?_cons_succ] at hq ⊢
        exact hcorr n q hq

/-- C6 -- in the single-pass mode, for each query row the result documents
are obtained by indexing the original index collection at the positions
selected by the backend top-k, in selection order, paired with the top-k
scores; with `limit = k` on an index of at least `k` documents, exactly `k`
(document, score) pairs are returned per query and every returned document
is a member of the index.  The hypothesis `hm` states that the backend
metric produces one score per index document, as the real metrics do. -/
theorem C6_topk_selection (schema : Schema) (index : List α)
    (embedOf : α → Emb) (query_rows : List Emb)
    (search_field metric : String) (metric_fn : Emb → List Emb → List Int)
    (limit : Nat) (descending : Option Bool) (ft : FieldType)
    (hf : lookupField schema search_field = some ft)
    (ht : ft.isTensor = true)
    (hm : ∀ q ∈ query_rows,
      (metric_fn q (index.map embedOf)).length = index.length)
    (hk : limit ≤ index.length) :
    ∃ rows, (find_batched schema index embedOf query_rows none search_field
        metric metric_fn limit descending).1 = .ok rows ∧
      rows.length = query_rows.length ∧
      (∀ r ∈ rows, r.1.length = limit ∧ r.2.length = limit ∧
        ∀ d ∈ r.1, d ∈ index) ∧
      ∀ (j : Nat) (q : Emb), query_rows[j]? = some q →
        ∃ docs,
          mapExcept (getDoc index)
            (top_k (metric_fn q (index.map embedOf)) limit
              (resolve_descending descending metric)).2 = .ok docs ∧
          rows[j]? = some (docs,
            (top_k (metric_fn q (index.map embedOf)) limit
              (resolve_descending descending metric)).1) := by
  have hvalid : ∀ q ∈ query_rows,
      ∀ i ∈ (rowPair (index.map embedOf) metric_fn limit
        (resolve_descending descending metric) q).1, i < index.length := by
    intro q hq i hi
    have := top_k_indices_lt (metric_fn q (index.map embedOf)) limit
      (resolve_descending descending metric) i hi
    rwa [hm q hq] at this
  obtain ⟨rows, hr, hlen, hsrc, hcorr⟩ :=
    materialize_map index (rowPair (index.map embedOf) metric_fn limit
      (resolve_descending descending metric)) query_rows hvalid
  refine ⟨rows, ?_, hlen, ?_, ?_⟩
  · unfold find_batched
    rw [hf]
    simp only [ht, if_true, get_result_zip]
    exact hr
  · intro r hmem
    obtain ⟨q, hq, h1, h2⟩ := hsrc r hmem
    obtain ⟨hdl, hdm⟩ := mapExcept_getDoc_ok index h1
    have hk1 := (top_k_length (metric_fn q (index.map embedOf)) limit
      (resolve_descending descending metric)).1
    have hk2 := (top_k_length (metric_fn q (index.map embedOf)) limit
      (resolve_descending descending metric)).2
    rw [hm q hq] at hk1 hk2
    refine ⟨?_, ?_, hdm⟩
    · rw [hdl]
      unfold rowPair
      rw [hk2]
      omega
    · rw [h2]
      unfold rowPair
      rw [hk1]
      omega
  · intro j q hq
    exact hcorr j q hq

/-- C6 witness: a three-document index with `limit = 2` and one query; the
metric scores by negated distance, so top-2 selects documents 20 and 30. -/
theorem C6_topk_selection_witness :
    ∃ rows, (find_batched [("embedding", FieldType.torchTensorT)]
        ([10, 20, 30] : List Int) (fun d => [d]) [[25]] none "embedding"
        "cosine_sim"
        (fun q idx => idx.map (fun v => -(((q.headD 0) - v.headD 0).natAbs : Int)))
        2 none).1 = .ok rows ∧
      rows.length = 1 ∧
      (∀ r ∈ rows, r.1.length = 2 ∧ r.2.length = 2 ∧
        ∀ d ∈ r.1, d ∈ ([10, 20, 30] : List Int)) ∧
      ∀ (j : Nat) (q : Emb), ([[25]] : List Emb)[j]? = some q →
        ∃ docs,
          mapExcept (getDoc ([10, 20, 30] : List Int))
            (top_k ((fun (q : Emb) (idx : List Emb) =>
                idx.map (fun v => -(((q.headD 0) - v.headD 0).natAbs : Int))) q
                (([10, 20, 30] : List Int).map (fun d => [d]))) 2
              (resolve_descending none "cosine_sim")).2 = .ok docs ∧
          rows[j]? = some (docs,
            (top_k ((fun (q : Emb) (idx : List Emb) =>
                idx.map (fun v => -(((q.headD 0) - v.headD 0).natAbs : Int))) q
                (([10, 20, 30] : List Int).map (fun d => [d]))) 2
              (resolve_descending none "cosine_sim")).1) :=
  C6_topk_selection _ _ _ _ _ _ _ _ _ FieldType.torchTensorT
    (by decide) (by decide) (by decide) (by decide)

/-! ## Query promotion and `find` (utils/find.py lines 40-119, 303-349) -/

/-- An element-level tensor: a shape plus the flat element data in
row-major order, as the query-extraction helpers see it. -/
structure Tens where
  shape : List Nat
  data : List Int
deriving DecidableEq, Repr

/-- A query document: only the value of its search field matters here. -/
structure QDoc where
  emb : Tens
deriving DecidableEq, Repr

/-- `_extract_embedding_single` (utils/find.py lines 303-323): take the
embedding from a document (via `_traverse`) or use the tensor directly,
then `emb.reshape(1, -1)` when it is 1-D — promotion to a batch of size 1,
with `-1` inferring the element count. -/
def extract_embedding_single (data : QDoc ⊕ Tens) : Tens :=
  let emb := match data with
    | .inl d => d.emb
    | .inr t => t
  if emb.shape.length = 1 then ⟨[1, emb.shape.prod], emb.data⟩ else emb

/-- The tensor-input case of `_extract_embeddings` (utils/find.py lines
326-349): the tensor is used as is, except that a 1-D tensor is reshaped
to `(1, -1)`. -/
def extract_embeddings_tensor (t : Tens) : Tens :=
  if t.shape.length = 1 then ⟨[1, t.shape.prod], t.data⟩ else t

/-- The rows of a rank-2 embedding matrix in row-major order; the scoring
path consumes the query matrix row by row. -/
def tensRows (t : Tens) : List Emb :=
  match t.shape with
  | [_r, c] => chunkList c t.data
  | _ => [t.data]

/-- `find` (utils/find.py lines 40-119): extract and promote the query
embedding with `_extract_embedding_single`, call `find_batched` with
`batch_size=None` and the same arguments, and return the first batched
result (`docs[0], scores[0]`; `[0]` raises `IndexError` when empty). -/
def find (schema : Schema) (index : List α) (embedOf : α → Emb)
    (query : QDoc ⊕ Tens) (search_field metric : String)
    (metric_fn : Emb → List Emb → List Int) (limit : Nat)
    (descending : Option Bool) : Except FindError (List α × List Int) :=
  match (find_batched schema index embedOf
      (tensRows (extract_embeddings_tensor (extract_embedding_single query)))
      none search_field metric metric_fn limit descending).1 with
  | .error e => .error e
  | .ok rows =>
    match rows[0]? with
    | some r => .ok r
    | none => .error .indexError

theorem chunkList_all (b : Nat) (hb : b ≠ 0) (l : List α) (hl : l ≠ [])
    (hle : l.length ≤ b) : chunkList b l = [l] := by
  match l with
  | [] => exact absurd rfl hl
  | x :: xs =>
    rw [chunkList, dif_neg hb, List.take_of_length_le hle,
      List.drop_eq_nil_of_le hle, chunkList]

/-- C5 -- a query given as a single document or as a 1-D tensor of length
`n > 0` is promoted to a batch of size 1: the extracted embedding is
reshaped to `[1, n]` with the element data unchanged, the single row of
that batch is the original vector, and `find` feeds it through
`find_batched` (the one shared scoring path), returning the first batched
result. -/
theorem C5_single_query_promotion (t : Tens) (n : Nat) (d : QDoc)
    (schema : Schema) (index : List α) (embedOf : α → Emb)
    (search_field metric : String) (metric_fn : Emb → List Emb → List Int)
    (limit : Nat) (descending : Option Bool)
    (hs : t.shape = [n]) (hn : 0 < n) (hw : t.data.length = n)
    (hd : d.emb = t) :
    extract_embedding_single (.inr t) = ⟨[1, n], t.data⟩ ∧
      extract_embedding_single (.inl d) = ⟨[1, n], t.data⟩ ∧
      tensRows (extract_embeddings_tensor (extract_embedding_single (.inr t)))
        = [t.data] ∧
      ∀ rows r, (find_batched schema index embedOf [t.data] none
          search_field metric metric_fn limit descending).1 = .ok rows →
        rows[0]? = some r →
        find schema index embedOf (.inr t) search_field metric metric_fn
          limit descending = .ok r := by
  have h1 : extract_embedding_single (.inr t) = ⟨[1, n], t.data⟩ := by
    unfold extract_embedding_single
    simp [hs]
  have h3 : tensRows (extract_embeddings_tensor
      (extract_embedding_single (.inr t))) = [t.data] := by
    rw [h1]
    unfold extract_embeddings_tensor
    simp only [List.length_cons, List.length_singleton]
    rw [if_neg (by omega)]
    unfold tensRows
    simp only
    refine chunkList_all n (by omega) t.data ?_ (by omega)
    intro hnil
    rw [hnil] at hw
    simp at hw
    omega
  refine ⟨h1, ?_, h3, ?_⟩
  · unfold extract_embedding_single
    simp [hd, hs]
  · intro rows r hrows hr
    unfold find
    rw [h3, hrows]
    simp [hr]

/-- C5 witness: the promotion of the 1-D tensor `[5, 7]` (and of a
document carrying it) on a concrete two-document index. -/
theorem C5_single_query_promotion_witness :
    extract_embedding_single (.inr ⟨[2], [5, 7]⟩) = ⟨[1, 2], [5, 7]⟩ ∧
      extract_embedding_single (.inl ⟨⟨[2], [5, 7]⟩⟩) = ⟨[1, 2], [5, 7]⟩ ∧
      tensRows (extract_embeddings_tensor
        (extract_embedding_single (.inr ⟨[2], [5, 7]⟩))) = [[5, 7]] ∧
      ∀ rows r, (find_batched [("embedding", FieldType.torchTensorT)]
          ([3, 4] : List Int) (fun v => [v, v]) [[5, 7]] none "embedding"
          "cosine_sim" (fun _ idx => idx.map (fun _ => 0)) 1 none).1
            = .ok rows →
        rows[0]? = some r →
        find [("embedding", FieldType.torchTensorT)] ([3, 4] : List Int)
          (fun v => [v, v]) (.inr ⟨[2], [5, 7]⟩) "embedding" "cosine_sim"
          (fun _ idx => idx.map (fun _ => 0)) 1 none = .ok r :=
  C5_single_query_promotion ⟨[2], [5, 7]⟩ 2 ⟨⟨[2], [5, 7]⟩⟩ _ _ _ _ _ _ _ _
    (by decide) (by decide) (by decide) (by decide)

/-! ## The legacy engine (`docarray/utility/find.py`) -/

/-- `_da_attr_type` (utility/find.py lines 281-289): return
`da.document_type.__fields__[attr].type_` with NO tensor-type check; a
missing attribute is a `KeyError` from the `__fields__` dictionary. -/
def da_attr_type_utility (schema : Schema) (attr : String) :
    Except FindError FieldType :=
  match lookupField schema attr with
  | none => .error (.keyError attr)
  | some ft => .ok ft

/-- Modelled from the spec: `type_to_framework`
(`docarray.typing.tensor`, not in this repository slice), the dictionary
mapping each tensor class to its framework module name; non-tensor
classes are not keys. -/
def type_to_framework (ft : FieldType) : Option String :=
  match ft with
  | .torchTensorT => some "torch"
  | .ndArrayT => some "numpy"
  | _ => none

/-- The `type_to_framework[embedding_type]` lookup performed by
`_get_metric_fn` and `_get_topk_fn` (utility/find.py lines 292-321); a
type that is not registered raises `KeyError`. -/
def get_framework_utility (ft : FieldType) : Except FindError String :=
  match type_to_framework ft with
  | some fw => .ok fw
  | none => .error (.keyError ft.pyName)

/-- `find_batched` (utility/find.py lines 107-214): resolve `descending`,
resolve the declared type of the embedding field (no tensor check), look
up the framework-specific metric and top-k functions, extract the
embeddings, score, select top-k, and materialize each per-query result by
appending `index[idx]` in selection order. -/
def find_batched_utility (schema : Schema) (index : List α)
    (embedOf : α → Emb) (query_rows : List Emb)
    (embedding_field metric : String)
    (metric_fn : Emb → List Emb → List Int) (limit : Nat)
    (descending : Option Bool) :
    Except FindError (List (List α × List Int)) :=
  let desc := resolve_descending descending metric
  match da_attr_type_utility schema embedding_field with
  | .error e => .error e
  | .ok et =>
    match get_framework_utility et with
    | .error e => .error e
    | .ok _ =>
      let index_embeddings := index.map embedOf
      let r := get_result query_rows index_embeddings metric_fn limit desc
      materialize index (r.1.zip r.2)

/-- C7 -- COUNTEREXAMPLE.  Not every find path fails with the typed
field-type error on a non-tensor search field: in `utility/find.py`,
`_da_attr_type` performs no tensor check, and the failure surfaces as a
`KeyError` from the `type_to_framework` dictionary lookup instead of the
`ValueError` identifying the non-tensor search target that
`utils/find.py` raises. -/
theorem C7_fieldtype_counterexample :
    find_batched_utility [("embedding", FieldType.strT)] ([5] : List Int)
        (fun v => [v]) [[1]] "embedding" "cosine_sim" (fun _ _ => []) 10 none
      = .error (.keyError "str") ∧
      find_batched_utility [("embedding", FieldType.strT)] ([5] : List Int)
        (fun v => [v]) [[1]] "embedding" "cosine_sim" (fun _ _ => []) 10 none
      ≠ .error (.fieldTypeError "embedding") := by
  constructor
  · decide
  · decide

/-- C7 (amended) -- when the resolved declared type of the search field is
not a tensor type, `find` and `find_batched` of `utils/find.py` fail with
the typed `ValueError` "attribute ... is not a tensor-like type" (the
spec's FieldTypeError) before any scoring is performed (the phase trace is
empty), for every query, metric and batch size; the `utility/find.py`
variant instead fails with an untyped `KeyError` from the framework
lookup, still before any scoring. -/
theorem C7_nontensor_field_error (schema : Schema) (index : List α)
    (embedOf : α → Emb) (query_rows : List Emb) (batch_size : Option Int)
    (search_field metric : String) (metric_fn : Emb → List Emb → List Int)
    (limit : Nat) (descending : Option Bool) (query : QDoc ⊕ Tens)
    (ft : FieldType) (hf : lookupField schema search_field = some ft)
    (ht : ft.isTensor = false) :
    find_batched schema index embedOf query_rows batch_size search_field
        metric metric_fn limit descending
      = (.error (.fieldTypeError search_field), []) ∧
      find schema index embedOf query search_field metric metric_fn limit
        descending = .error (.fieldTypeError search_field) ∧
      find_batched_utility schema index embedOf query_rows search_field
        metric metric_fn limit descending = .error (.keyError ft.pyName) := by
  have h1 : find_batched schema index embedOf query_rows batch_size
      search_field metric metric_fn limit descending
      = (.error (.fieldTypeError search_field), []) := by
    unfold find_batched
    rw [hf]
    simp [ht]
  refine ⟨h1, ?_, ?_⟩
  · unfold find
    rw [show (find_batched schema index embedOf
        (tensRows (extract_embeddings_tensor
          (extract_embedding_single query))) none search_field metric
        metric_fn limit descending)
      = (.error (.fieldTypeError search_field), []) by
        unfold find_batched
        rw [hf]
        simp [ht]]
  · unfold find_batched_utility da_attr_type_utility get_framework_utility
    rw [hf]
    cases ft with
    | torchTensorT => simp [FieldType.isTensor] at ht
    | ndArrayT => simp [FieldType.isTensor] at ht
    | strT => rfl
    | intT => rfl

/-- C7 amended-claim witness: the non-tensor field `"embedding"` of
declared type `str` on a concrete one-document index. -/
theorem C7_nontensor_field_error_witness :
    find_batched [("embedding", FieldType.strT)] ([5] : List Int)
        (fun v => [v]) [[1]] (some 2) "embedding" "cosine_sim"
        (fun _ _ => []) 10 none
      = (.error (.fieldTypeError "embedding"), []) ∧
      find [("embedding", FieldType.strT)] ([5] : List Int) (fun v => [v])
        (.inr ⟨[1], [1]⟩) "embedding" "cosine_sim" (fun _ _ => []) 10 none
        = .error (.fieldTypeError "embedding") ∧
      find_batched_utility [("embedding", FieldType.strT)] ([5] : List Int)
        (fun v => [v]) [[1]] "embedding" "cosine_sim" (fun _ _ => []) 10 none
        = .error (.keyError FieldType.strT.pyName) :=
  C7_nontensor_field_error _ _ _ _ (some 2) _ _ _ _ _ (.inr ⟨[1], [1]⟩)
    FieldType.strT (by decide) (by decide)

/-! ## Shape-parametrized tensor validation -/

/-- Modelled from the spec: validation of a raw tensor against a tensor
type parametrized by a fully fixed declared shape, e.g.
`TorchTensor[3, 224, 224]` (the `AbstractTensor` shape-validation hook is
not in this repository slice).  The behaviour follows the documented
examples in `TorchTensor`'s own docstring (torch_tensor.py lines 50-85):
an input whose shape equals the declaration is returned unchanged; an
input of a different shape but the same total size is reshaped to the
declared shape ("automatic shape conversion", e.g. `(224, 224, 3)`
becomes `(3, 224, 224)`), keeping the flat element order; any other input
fails validation.  Wildcard-parametrized shapes such as
`TorchTensor[3, 'x', 'x']` are outside this model. -/
def validate_shape (declared : List Nat) (t : Tens) :
    Except String Tens :=
  if t.shape = declared then .ok t
  else if t.shape.prod = declared.prod then .ok ⟨declared, t.data⟩
  else .error "ShapeMismatch"

/-- C8 -- COUNTEREXAMPLE.  A reshape is NOT attempted only for 1-D
inputs: per the documented "automatic shape conversion" of
`TorchTensor`'s docstring, a rank-3 input of shape `(2, 2, 3)` validated
against the declared fixed shape `(3, 2, 2)` succeeds by reshape (same
total size, element order kept), where the claim requires any
fixed-extent mismatch that is not a 1-D-to-declared reshape to fail with
a ShapeMismatch error. -/
theorem C8_reshape_counterexample :
    validate_shape [3, 2, 2]
        ⟨[2, 2, 3], [0, 1, 2, 3, 4, 5, 6, 7, 8, 9, 10, 11]⟩
      = .ok ⟨[3, 2, 2], [0, 1, 2, 3, 4, 5, 6, 7, 8, 9, 10, 11]⟩ := by
  decide

/-- C8 (amended) -- against a fully fixed declared shape, validation
succeeds exactly when the input's total size equals the declared total
size: the input is reshaped to the declared shape whatever its rank
(including the documented 1-D case), preserving the flat element order,
and a total-size mismatch fails with a ShapeMismatch error. -/
theorem C8_shape_validation (decl : List Nat) (t : Tens) :
    (t.shape.prod = decl.prod →
      ∃ r, validate_shape decl t = .ok r ∧ r.data = t.data ∧
        r.shape = decl) ∧
    (t.shape.prod ≠ decl.prod →
      validate_shape decl t = .error "ShapeMismatch") := by
  unfold validate_shape
  constructor
  · intro hp
    by_cases he : t.shape = decl
    · refine ⟨t, ?_, rfl, he⟩
      rw [if_pos he]
    · refine ⟨⟨decl, t.data⟩, ?_, rfl, rfl⟩
      rw [if_neg he, if_pos hp]
  · intro hp
    have he : t.shape ≠ decl := fun h => hp (by rw [h])
    rw [if_neg he, if_neg hp]

/-- C8 amended-claim witness: the 1-D input `[1,2,3,4,5,6]` against the
declared shape `(3, 2)` reshapes successfully with its element order
preserved. -/
theorem C8_shape_validation_witness :
    ∃ r, validate_shape [3, 2] ⟨[6], [1, 2, 3, 4, 5, 6]⟩ = .ok r ∧
      r.data = [1, 2, 3, 4, 5, 6] ∧ r.shape = [3, 2] :=
  (C8_shape_validation [3, 2] ⟨[6], [1, 2, 3, 4, 5, 6]⟩).1 (by decide)

/-! ## Embedding type parametrization (`docarray/typing/tensor/embedding.py`) -/

/-- The parametrization item of `Tensor[item]`: a single integer or a
tuple of integers. -/
inductive GetItem
  | single (n : Int)
  | tuple (l : List Int)
deriving DecidableEq, Repr

/-- Modelled from the spec: the base `AbstractTensor.__validate_getitem__`
(not in this repository slice), which normalizes the parametrization item
of `Tensor[item]` into a shape tuple — a lone integer becomes a
one-element tuple. -/
def abstract_validate_getitem : GetItem → List Int
  | .single n => [n]
  | .tuple l => l

/-- `EmbeddingMixin.__validate_getitem__` (embedding.py lines 14-22):
normalize the item via the base class, then reject a shape of more than
one dimension/axis with a `ValueError` whose message names
`alternative_type` when the class declares one.  `NdArrayEmbedding` sets
`alternative_type = NdArray` (line 26) and `TorchEmbedding` sets
`alternative_type = TorchTensor` (line 38). -/
def embedding_validate_getitem (cls : String) (alternative : Option String)
    (item : GetItem) : Except String (List Int) :=
  let shape := abstract_validate_getitem item
  if shape.length > 1 then
    .error (("`" ++ cls ++ "` can only have a single dimension/axis.") ++
      (match alternative with
       | some alt => " Consider using " ++ alt ++ " instead."
       | none => ""))
  else
    .ok shape

/-- C9 -- parametrizing either embedding tensor type with a shape of more
than one dimension raises a `ValueError` naming the alternative
non-embedding tensor type (`NdArray` for `NdArrayEmbedding`,
`TorchTensor` for `TorchEmbedding`), while a single-dimension
parametrization — a lone integer or a one-element tuple — is accepted and
returns that one-element shape. -/
theorem C9_embedding_single_axis (l : List Int) (n : Int)
    (hl : l.length > 1) :
    embedding_validate_getitem "NdArrayEmbedding" (some "NdArray")
        (.tuple l) = .error
        "`NdArrayEmbedding` can only have a single dimension/axis. Consider using NdArray instead." ∧
      embedding_validate_getitem "TorchEmbedding" (some "TorchTensor")
        (.tuple l) = .error
        "`TorchEmbedding` can only have a single dimension/axis. Consider using TorchTensor instead." ∧
      embedding_validate_getitem "NdArrayEmbedding" (some "NdArray")
        (.single n) = .ok [n] ∧
      embedding_validate_getitem "TorchEmbedding" (some "TorchTensor")
        (.single n) = .ok [n] ∧
      embedding_validate_getitem "NdArrayEmbedding" (some "NdArray")
        (.tuple [n]) = .ok [n] ∧
      embedding_validate_getitem "TorchEmbedding" (some "TorchTensor")
        (.tuple [n]) = .ok [n] := by
  unfold embedding_validate_getitem abstract_validate_getitem
  refine ⟨?_, ?_, rfl, rfl, rfl, rfl⟩ <;> rw [if_pos hl] <;> rfl

/-- C9 witness: the rejected two-dimensional parametrization `(3, 128)`
and the accepted one-dimensional parametrization `128`. -/
theorem C9_embedding_single_axis_witness :
    embedding_validate_getitem "NdArrayEmbedding" (some "NdArray")
        (.tuple [3, 128]) = .error
        "`NdArrayEmbedding` can only have a single dimension/axis. Consider using NdArray instead." ∧
      embedding_validate_getitem "TorchEmbedding" (some "TorchTensor")
        (.tuple [3, 128]) = .error
        "`TorchEmbedding` can only have a single dimension/axis. Consider using TorchTensor instead." ∧
      embedding_validate_getitem "NdArrayEmbedding" (some "NdArray")
        (.single 128) = .ok [128] ∧
      embedding_validate_getitem "TorchEmbedding" (some "TorchTensor")
        (.single 128) = .ok [128] ∧
      embedding_validate_getitem "NdArrayEmbedding" (some "NdArray")
        (.tuple [128]) = .ok [128] ∧
      embedding_validate_getitem "TorchEmbedding" (some "TorchTensor")
        (.tuple [128]) = .ok [128] :=
  C9_embedding_single_axis [3, 128] 128 (by decide)

end Docarray
